import Mathlib

/-!
Verification of the parking cession/reservation core of `app.py`.

The repository is a Streamlit client over a Supabase REST backend.  The
embedding below models dates as integers (days), wall-clock time as minutes
since midnight, and the persisted tables (`slots`, `pre_reservas`,
`ev_solicitudes`) as lists of rows.  REST `PATCH ... where filter` calls are
modelled as a map over the rows applying the update to the rows that match
the filter, and `POST ... on_conflict=... Prefer: resolution=merge-duplicates`
as an insert-or-update keyed on the conflict columns, exactly as PostgREST
executes them.
-/

namespace Parking

/-- Cut-off time used throughout the app: `time(20, 0)`, in minutes since
midnight. -/
def limite : Nat := 20 * 60

/-- Translation of `se_puede_modificar_slot(fecha_slot, accion)` from
`app.py`.  `hoy` is `date.today()` as an integer day, `ahora` the current
local time in minutes.  The Python body returns on the `reservar` /
`cancelar` sub-cases of `fecha_slot == hoy`, otherwise falls through to the
`hoy + 1` check and then to the final unconditional `return True`. -/
def se_puede_modificar_slot (hoy : Int) (ahora : Nat) (fecha_slot : Int)
    (accion : String) : Bool :=
  if fecha_slot = hoy ∧ accion = "reservar" then true
  else if fecha_slot = hoy ∧ accion = "cancelar" then false
  else if fecha_slot = hoy + 1 then decide (ahora < limite)
  else true

/-- Translation of the nested helper `se_puede_modificar_cesion(fecha_slot)`
of `view_titular`: today is never editable, tomorrow only strictly before
20:00, everything else always. -/
def se_puede_modificar_cesion (hoy : Int) (ahora : Nat) (fecha_slot : Int) :
    Bool :=
  if fecha_slot = hoy then false
  else if fecha_slot = hoy + 1 ∧ limite ≤ ahora then false
  else true

/-- Row of the `slots` table, with the columns `app.py` reads and writes:
`fecha`, `plaza_id`, `franja` ("M" or "T"), `owner_usa`, `reservado_por`,
`estado`, and the lottery-origin flag `es_sorteo`. -/
structure SlotRow where
  fecha : Int
  plaza_id : Nat
  franja : String
  owner_usa : Bool
  reservado_por : Option String
  estado : String
  es_sorteo : Bool
deriving Repr, DecidableEq

/-- Row of the `pre_reservas` table: requester, date, half-day period,
state (`PENDIENTE` / `ASIGNADO` / `RECHAZADO` / `CANCELADO`) and the optional
full-day `pack_id`. -/
structure PreReserva where
  usuario_id : String
  fecha : Int
  franja : String
  estado : String
  pack_id : Option String
deriving Repr, DecidableEq

/-- Persisted state touched by the parking operations: the `slots` table and
the `pre_reservas` table. -/
structure DB where
  slots : List SlotRow
  pre_reservas : List PreReserva
deriving Repr, DecidableEq

/-- Effect on one `pre_reservas` row of the first PATCH in
`cancelar_sorteo`: filter `fecha=eq.<fecha>`, `estado=in.(ASIGNADO,RECHAZADO)`,
update `{"estado": "PENDIENTE"}`. -/
def revertirPre (fecha : Int) (r : PreReserva) : PreReserva :=
  if r.fecha = fecha ∧ (r.estado = "ASIGNADO" ∨ r.estado = "RECHAZADO") then
    { r with estado := "PENDIENTE" }
  else r

/-- Effect on one `slots` row of the second PATCH in `cancelar_sorteo`:
filter `fecha=eq.<fecha>`, `es_sorteo=eq.true`, update
`{"reservado_por": null, "es_sorteo": false}`. -/
def limpiarSlotSorteo (fecha : Int) (s : SlotRow) : SlotRow :=
  if s.fecha = fecha ∧ s.es_sorteo = true then
    { s with reservado_por := none, es_sorteo := false }
  else s

/-- Translation of `cancelar_sorteo(fecha_obj)`: one PATCH putting the
ASIGNADO/RECHAZADO pre-reservations of the date back to PENDIENTE, then one
PATCH releasing the slots of the date with `es_sorteo = true`. -/
def cancelar_sorteo (fecha : Int) (db : DB) : DB :=
  { slots := db.slots.map (limpiarSlotSorteo fecha),
    pre_reservas := db.pre_reservas.map (revertirPre fecha) }

/-- Free-slot filter of the today-path GET in `view_suplente`:
`fecha=eq.d`, `franja=eq.f`, `owner_usa=eq.false`,
`reservado_por=is.null`. -/
def esLibre (d : Int) (f : String) (s : SlotRow) : Bool :=
  decide (s.fecha = d ∧ s.franja = f ∧ s.owner_usa = false
    ∧ s.reservado_por = none)

/-- Head of the matching rows under `order=plaza_id.asc` with `limit=1`:
the row with the smallest `plaza_id` (first occurrence on ties). -/
def minPorPlaza : List SlotRow → Option SlotRow
  | [] => none
  | s :: rest =>
    match minPorPlaza rest with
    | none => some s
    | some t => if s.plaza_id ≤ t.plaza_id then some s else some t

/-- The single row produced by the free-slot GET of the today path
(`order=plaza_id.asc`, `limit=1` over the free slots of (d, f)). -/
def primeraLibre (d : Int) (f : String) (db : DB) : Option SlotRow :=
  minPorPlaza (db.slots.filter (esLibre d f))

/-- Effect of the today-path upsert payload on a row whose conflict key
(fecha, plaza_id, franja) matches: merge-duplicates overwrites the payload
columns (`owner_usa := false`, `reservado_por := some user`,
`estado := "CONFIRMADO"`) and keeps the columns absent from the payload
(`es_sorteo`). -/
def aplicarReservaHoy (d : Int) (f : String) (plaza : Nat) (user : String)
    (s : SlotRow) : SlotRow :=
  if s.fecha = d ∧ s.plaza_id = plaza ∧ s.franja = f then
    { s with owner_usa := false, reservado_por := some user,
             estado := "CONFIRMADO" }
  else s

/-- Translation of the POST `slots?on_conflict=fecha,plaza_id,franja` with
`Prefer: resolution=merge-duplicates` that the today path issues: update the
rows carrying the conflict key when present, insert the payload row
otherwise.  The write is unconditional on `reservado_por`. -/
def escrituraReservaHoy (d : Int) (f : String) (plaza : Nat) (user : String)
    (db : DB) : DB :=
  if db.slots.any
      (fun s => decide (s.fecha = d ∧ s.plaza_id = plaza ∧ s.franja = f)) then
    { db with slots := db.slots.map (aplicarReservaHoy d f plaza user) }
  else
    { db with
        slots := db.slots ++ [⟨d, plaza, f, false, some user, "CONFIRMADO", false⟩] }

/-- Outcome reported by the today path: the reserved plaza, or the
"no free slot left in this period" warning with no write performed. -/
inductive ResultadoHoy
  | reservada (plaza : Nat)
  | sinHueco
deriving Repr, DecidableEq

/-- Translation of the `d == hoy` branch of "Guardar cambios" in
`view_suplente`: read the free slot with the lowest `plaza_id` for
(today, franja); if one exists, upsert it with `reservado_por := user`;
otherwise warn and write nothing. -/
def reservarHoy (d : Int) (f : String) (user : String) (db : DB) :
    ResultadoHoy × DB :=
  match primeraLibre d f db with
  | some s =>
      (ResultadoHoy.reservada s.plaza_id,
        escrituraReservaHoy d f s.plaza_id user db)
  | none => (ResultadoHoy.sinHueco, db)

/-- Per-browser session state relevant to the automatic trigger:
`st.session_state.last_auto_draw_date`, initialised to `None` on session
creation. -/
structure Sesion where
  last_auto_draw_date : Option Int
deriving Repr, DecidableEq

/-- Translation of the automatic-trigger condition in `main`:
`if ahora >= limite and not ya_ejecutado_hoy`, with `ya_ejecutado_hoy =
(st.session_state.last_auto_draw_date == hoy)`.  The check reads only the
session variable; the persistent `sorteos_log` table is not consulted. -/
def disparaSorteoAutomatico (hoy : Int) (ahora : Nat) (ses : Sesion) : Bool :=
  decide (limite ≤ ahora) && ! decide (ses.last_auto_draw_date = some hoy)

/-- One authenticated page run of `main` for one session: when the trigger
fires it executes the lottery for `hoy + 1` and records `hoy` in the
session variable; the Bool says whether the lottery ran. -/
def pasoSorteoAutomatico (hoy : Int) (ahora : Nat) (ses : Sesion) :
    Sesion × Bool :=
  if disparaSorteoAutomatico hoy ahora ses then
    ({ last_auto_draw_date := some hoy }, true)
  else (ses, false)

/-- Number of automatic executions of the lottery for `hoy + 1` when each of
the given independent browser sessions runs `main` once at the same local
time. -/
def ejecucionesAutomaticas (hoy : Int) (ahora : Nat)
    (sesiones : List Sesion) : Nat :=
  (sesiones.filter (disparaSorteoAutomatico hoy ahora)).length

/-- Calendar date in the shape of Python's `datetime.date`. -/
structure Fecha where
  year : Nat
  month : Nat
  day : Nat
deriving Repr, DecidableEq

/-- Lexicographic year/month/day order, as comparison of `date` values. -/
def Fecha.antesIgual (a b : Fecha) : Bool :=
  decide (a.year < b.year ∨ (a.year = b.year ∧ (a.month < b.month
    ∨ (a.month = b.month ∧ a.day ≤ b.day))))

/-- Strict lexicographic year/month/day order on dates. -/
def Fecha.antes (a b : Fecha) : Bool :=
  decide (a.year < b.year ∨ (a.year = b.year ∧ (a.month < b.month
    ∨ (a.month = b.month ∧ a.day < b.day))))

/-- `first_day = hoy.replace(day=1)` of the monthly-usage KPI in
`view_suplente`. -/
def first_day (hoy : Fecha) : Fecha := { hoy with day := 1 }

/-- `next_month_first` of the monthly-usage KPI, with the December branch
`first_day.replace(month=(month % 12) + 1, year=year + month // 12)` and the
ordinary branch `date(year, month + 1, 1)`. -/
def next_month_first (hoy : Fecha) : Fecha :=
  if (first_day hoy).month = 12 then
    { first_day hoy with
        month := (first_day hoy).month % 12 + 1,
        year := (first_day hoy).year + (first_day hoy).month / 12 }
  else ⟨(first_day hoy).year, (first_day hoy).month + 1, 1⟩

/-- Row of `slots` as read by the monthly-usage query: `select=fecha` plus
the `reservado_por` column the query filters on. -/
structure FilaUso where
  fecha : Fecha
  reservado_por : Option String
deriving Repr, DecidableEq

/-- Translation of the monthly-usage KPI of `view_suplente`: the GET keeps
the rows with `reservado_por=eq.user` and `fecha=gte.first_day`; the client
loop then keeps the dates with `first_day <= f < next_month_first` and the
KPI is the length of the result. -/
def usadas_mes (filas : List FilaUso) (user : String) (hoy : Fecha) : Nat :=
  ((filas.filter (fun r => decide (r.reservado_por = some user)
      && Fecha.antesIgual (first_day hoy) r.fecha)).filter
    (fun r => Fecha.antesIgual (first_day hoy) r.fecha
      && Fecha.antes r.fecha (next_month_first hoy))).length

/-- The spec wording of the UsageLedger entry, for comparison: count of
Slot rows where `reservedBy = requester` and `date` falls within
`[firstOfMonth(targetDate), firstOfNextMonth(targetDate))`. -/
def usoMensualSpec (filas : List FilaUso) (user : String) (hoy : Fecha) :
    Nat :=
  (filas.filter (fun r => decide (r.reservado_por = some user)
    && Fecha.antesIgual (first_day hoy) r.fecha
    && Fecha.antes r.fecha (next_month_first hoy))).length

/-- Row of `ev_solicitudes`: date, user, turn preference, state. -/
structure EvSolicitud where
  fecha : Int
  usuario_id : String
  pref_turno : String
  estado : String
deriving Repr, DecidableEq

/-- Effect of `ev_cancelar_solicitud` on one row: PATCH with filter
`fecha=eq`, `usuario_id=eq`,
`estado=in.(PENDIENTE,ASIGNADO,RECHAZADO,NO_DISPONIBLE)`, update
`{"estado": "CANCELADO"}`. -/
def evCancelarFila (d : Int) (user : String) (r : EvSolicitud) :
    EvSolicitud :=
  if r.fecha = d ∧ r.usuario_id = user ∧
      (r.estado = "PENDIENTE" ∨ r.estado = "ASIGNADO"
        ∨ r.estado = "RECHAZADO" ∨ r.estado = "NO_DISPONIBLE") then
    { r with estado := "CANCELADO" }
  else r

/-- Translation of `ev_cancelar_solicitud(fecha_obj, usuario_id)`. -/
def ev_cancelar_solicitud (d : Int) (user : String)
    (filas : List EvSolicitud) : List EvSolicitud :=
  filas.map (evCancelarFila d user)

/-- Effect on one `pre_reservas` row of the cancellation PATCH in the
"NOACCION" branch of `view_suplente`: filter `usuario_id=eq`, `fecha=eq`,
`franja=eq`, `estado=in.(PENDIENTE,ASIGNADO)`, update
`{"estado": "CANCELADO"}`. -/
def cancelarPreFila (user : String) (d : Int) (f : String) (r : PreReserva) :
    PreReserva :=
  if r.usuario_id = user ∧ r.fecha = d ∧ r.franja = f ∧
      (r.estado = "PENDIENTE" ∨ r.estado = "ASIGNADO") then
    { r with estado := "CANCELADO" }
  else r

/-- Translation of the pre-reservation cancellation of `view_suplente`: the
PATCH touches only the `pre_reservas` table; `slots` is untouched. -/
def cancelarPreReserva (user : String) (d : Int) (f : String) (db : DB) :
    DB :=
  { db with pre_reservas := db.pre_reservas.map (cancelarPreFila user d f) }

/-- Translation of the full-day pack creation in "Guardar cambios" of
`view_suplente`: one POST inserting two `pre_reservas` rows with the same
fresh `pack_id = str(uuid.uuid4())`, periods "M" and "T", both created in
state PENDIENTE, same requester and date. -/
def crearPackDiaCompleto (user : String) (d : Int) (pack : String)
    (db : DB) : DB :=
  { db with pre_reservas := db.pre_reservas ++
      [⟨user, d, "M", "PENDIENTE", some pack⟩,
       ⟨user, d, "T", "PENDIENTE", some pack⟩] }

/-- Modelled from the spec: the lottery itself runs in Postgres as the RPC
`ejecutar_sorteo_con_ev`, whose SQL is not part of src.  Spec §4.3 step 5:
the packs, already sorted by fairness key, are processed in order; a pack is
assigned when at least one free AM and one free PM slot remain (consuming
one of each), otherwise both halves are rejected — never only one half.
The result pairs each pack (requester, pack id) with its single outcome. -/
def asignarPacks :
    List (String × String) → Nat → Nat → List ((String × String) × String)
  | [], _, _ => []
  | p :: rest, m, t =>
    if 1 ≤ m ∧ 1 ≤ t then
      (p, "ASIGNADO") :: asignarPacks rest (m - 1) (t - 1)
    else (p, "RECHAZADO") :: asignarPacks rest m t

/-- Modelled from the spec: applying a pack outcome transitions every
PENDIENTE row of the pack to the outcome state (§4.3 step 5, both rows
transition together). -/
def aplicarResultadoPack (pack : String) (resultado : String)
    (r : PreReserva) : PreReserva :=
  if r.pack_id = some pack ∧ r.estado = "PENDIENTE" then
    { r with estado := resultado }
  else r

end Parking

namespace Parking

/-- C5: the edit-window policy matches the spec rule table.  RESERVE and
CANCEL are routed to `se_puede_modificar_slot` with the action strings the
call sites use, CEDE to `se_puede_modificar_cesion`.  Today: reserve allowed,
cancel and cede forbidden.  Tomorrow: any of the three allowed exactly while
`ahora < 20:00` (true at 19:59, false at 20:01, false at exactly 20:00).
Dates at `hoy + 2` or later: always allowed. -/
theorem c5_ventana_edicion_tabla (hoy : Int) (ahora : Nat) :
    se_puede_modificar_slot hoy ahora hoy "reservar" = true
    ∧ se_puede_modificar_slot hoy ahora hoy "cancelar" = false
    ∧ se_puede_modificar_cesion hoy ahora hoy = false
    ∧ se_puede_modificar_slot hoy ahora (hoy + 1) "reservar"
        = decide (ahora < limite)
    ∧ se_puede_modificar_slot hoy ahora (hoy + 1) "cancelar"
        = decide (ahora < limite)
    ∧ se_puede_modificar_cesion hoy ahora (hoy + 1) = decide (ahora < limite)
    ∧ se_puede_modificar_cesion hoy (19 * 60 + 59) (hoy + 1) = true
    ∧ se_puede_modificar_cesion hoy (20 * 60 + 1) (hoy + 1) = false
    ∧ se_puede_modificar_cesion hoy (20 * 60) (hoy + 1) = false
    ∧ (∀ fecha : Int, hoy + 2 ≤ fecha →
        ∀ accion : String,
          se_puede_modificar_slot hoy ahora fecha accion = true
          ∧ se_puede_modificar_cesion hoy ahora fecha = true) := by
  have hne : (hoy : Int) + 1 ≠ hoy := by omega
  refine ⟨?_, ?_, ?_, ?_, ?_, ?_, ?_, ?_, ?_, ?_⟩
  · simp [se_puede_modificar_slot]
  · simp [se_puede_modificar_slot]
  · simp [se_puede_modificar_cesion]
  · simp [se_puede_modificar_slot, hne]
  · simp [se_puede_modificar_slot, hne]
  · by_cases hlt : ahora < limite
    · simp [se_puede_modificar_cesion, hne, hlt, Nat.not_le.mpr hlt]
    · simp [se_puede_modificar_cesion, hne, hlt, Nat.le_of_not_lt hlt]
  · simp [se_puede_modificar_cesion, hne, limite]
  · simp [se_puede_modificar_cesion, hne, limite]
  · simp [se_puede_modificar_cesion, hne, limite]
  · intro fecha hf accion
    have h1 : fecha ≠ hoy := by omega
    have h2 : fecha ≠ hoy + 1 := by omega
    constructor
    · simp [se_puede_modificar_slot, h1, h2]
    · simp [se_puede_modificar_cesion, h1, h2]

/-- Witness for `c5_ventana_edicion_tabla` at `hoy = 0`, `ahora = 0`,
checking the `hoy + 2 ≤ fecha` branch at `fecha = 2`, `accion = "ceder"`. -/
theorem c5_ventana_edicion_tabla_witness :
    se_puede_modificar_slot 0 0 0 "reservar" = true
    ∧ (0 : Int) + 2 ≤ 2
    ∧ se_puede_modificar_slot 0 0 2 "ceder" = true
    ∧ se_puede_modificar_cesion 0 0 2 = true := by
  have h := c5_ventana_edicion_tabla 0 0
  have h2 := h.2.2.2.2.2.2.2.2.2 2 (by norm_num) "ceder"
  exact ⟨h.1, by norm_num, h2.1, h2.2⟩

/-- C10: for every date strictly before today, `se_puede_modificar_slot`
returns true for every action: only the today and tomorrow cases are tested
before the final unconditional `return True`. -/
theorem c10_fechas_pasadas_permitidas (hoy : Int) (ahora : Nat)
    (fecha : Int) (accion : String) (h : fecha < hoy) :
    se_puede_modificar_slot hoy ahora fecha accion = true := by
  have h1 : fecha ≠ hoy := by omega
  have h2 : fecha ≠ hoy + 1 := by omega
  simp [se_puede_modificar_slot, h1, h2]

/-- Witness for `c10_fechas_pasadas_permitidas`: yesterday, action
"cancelar", at 21:00. -/
theorem c10_fechas_pasadas_permitidas_witness :
    (-1 : Int) < 0
    ∧ se_puede_modificar_slot 0 (21 * 60) (-1) "cancelar" = true :=
  ⟨by norm_num, c10_fechas_pasadas_permitidas 0 (21 * 60) (-1) "cancelar"
    (by norm_num)⟩

/-- C4: frame of `cancelar_sorteo`.  Row-for-row, the new tables are the
images of the old tables under the two PATCH updates; a pre-reservation of
the target date in state ASIGNADO or RECHAZADO goes back to PENDIENTE and
any other pre-reservation (other date, or PENDIENTE/CANCELADO) is unchanged;
a slot of the target date with `es_sorteo = true` is released
(`reservado_por := none`, flag cleared) and any other slot (other date, or a
manual/direct assignment with `es_sorteo = false`) is completely
unchanged. -/
theorem c4_cancelar_sorteo_marco (fecha : Int) (db : DB) :
    (∀ i : Nat, ((cancelar_sorteo fecha db).pre_reservas)[i]?
        = ((db.pre_reservas)[i]?).map (revertirPre fecha))
    ∧ (∀ i : Nat, ((cancelar_sorteo fecha db).slots)[i]?
        = ((db.slots)[i]?).map (limpiarSlotSorteo fecha))
    ∧ (∀ r : PreReserva, r.fecha = fecha →
        (r.estado = "ASIGNADO" ∨ r.estado = "RECHAZADO") →
        revertirPre fecha r = { r with estado := "PENDIENTE" })
    ∧ (∀ r : PreReserva,
        (r.fecha ≠ fecha ∨ (r.estado ≠ "ASIGNADO" ∧ r.estado ≠ "RECHAZADO")) →
        revertirPre fecha r = r)
    ∧ (∀ s : SlotRow, s.fecha = fecha → s.es_sorteo = true →
        limpiarSlotSorteo fecha s
          = { s with reservado_por := none, es_sorteo := false })
    ∧ (∀ s : SlotRow, (s.fecha ≠ fecha ∨ s.es_sorteo = false) →
        limpiarSlotSorteo fecha s = s) := by
  refine ⟨?_, ?_, ?_, ?_, ?_, ?_⟩
  · intro i; simp [cancelar_sorteo]
  · intro i; simp [cancelar_sorteo]
  · intro r h1 h2; simp [revertirPre, h1, h2]
  · intro r h
    have hcond : ¬ (r.fecha = fecha ∧ (r.estado = "ASIGNADO" ∨ r.estado = "RECHAZADO")) := by
      rcases h with h | ⟨ha, hr⟩
      · intro hc; exact h hc.1
      · rintro ⟨-, hc | hc⟩
        · exact ha hc
        · exact hr hc
    simp [revertirPre, hcond]
  · intro s h1 h2; simp [limpiarSlotSorteo, h1, h2]
  · intro s h
    have hcond : ¬ (s.fecha = fecha ∧ s.es_sorteo = true) := by
      rcases h with h | h
      · intro hc; exact h hc.1
      · intro hc; rw [h] at hc; exact Bool.false_ne_true hc.2
    simp [limpiarSlotSorteo, hcond]

/-- Witness for `c4_cancelar_sorteo_marco`: a database with one ASIGNADO
pre-reservation for the target date, one for another date, one lottery slot
and one manual slot; the theorem is applied and each hypothesis discharged
concretely. -/
theorem c4_cancelar_sorteo_marco_witness :
    revertirPre 0 ⟨"U", 0, "M", "ASIGNADO", none⟩
      = ⟨"U", 0, "M", "PENDIENTE", none⟩
    ∧ revertirPre 0 ⟨"U", 1, "M", "ASIGNADO", none⟩
      = ⟨"U", 1, "M", "ASIGNADO", none⟩
    ∧ limpiarSlotSorteo 0 ⟨0, 1, "M", false, some "A", "CONFIRMADO", true⟩
      = ⟨0, 1, "M", false, none, "CONFIRMADO", false⟩
    ∧ limpiarSlotSorteo 0 ⟨0, 2, "M", false, some "D", "CONFIRMADO", false⟩
      = ⟨0, 2, "M", false, some "D", "CONFIRMADO", false⟩ := by
  have h := c4_cancelar_sorteo_marco 0 ⟨[], []⟩
  refine ⟨h.2.2.1 _ rfl (Or.inl rfl), ?_, h.2.2.2.2.1 _ rfl rfl, ?_⟩
  · exact h.2.2.2.1 _ (Or.inl (by norm_num))
  · exact h.2.2.2.2.2 _ (Or.inr rfl)

/-- Helper: the row returned by `minPorPlaza` belongs to the list. -/
theorem minPorPlaza_mem : ∀ (xs : List SlotRow) (s : SlotRow),
    minPorPlaza xs = some s → s ∈ xs := by
  intro xs
  induction xs with
  | nil => intro s h; simp [minPorPlaza] at h
  | cons a rest ih =>
    intro s h
    rw [minPorPlaza] at h
    split at h
    · injection h with h2
      subst h2
      exact List.mem_cons_self _ _
    · next t ht =>
        split at h
        · injection h with h2
          subst h2
          exact List.mem_cons_self _ _
        · injection h with h2
          subst h2
          exact List.mem_cons_of_mem _ (ih _ ht)

/-- Helper: `minPorPlaza` returns `none` exactly on the empty list. -/
theorem minPorPlaza_eq_none : ∀ (xs : List SlotRow),
    minPorPlaza xs = none ↔ xs = [] := by
  intro xs
  cases xs with
  | nil => simp [minPorPlaza]
  | cons a rest =>
    rw [minPorPlaza]
    constructor
    · intro h
      split at h
      · exact Option.noConfusion h
      · split at h <;> exact Option.noConfusion h
    · intro h
      exact absurd h (List.cons_ne_nil _ _)

/-- Helper: the row returned by `minPorPlaza` has the smallest `plaza_id`. -/
theorem minPorPlaza_le : ∀ (xs : List SlotRow) (s : SlotRow),
    minPorPlaza xs = some s → ∀ t ∈ xs, s.plaza_id ≤ t.plaza_id := by
  intro xs
  induction xs with
  | nil => intro s h; simp [minPorPlaza] at h
  | cons a rest ih =>
    intro s h t htmem
    rw [minPorPlaza] at h
    split at h
    · next hrest =>
        injection h with h2
        subst h2
        have : rest = [] := (minPorPlaza_eq_none rest).mp hrest
        subst this
        rcases List.mem_cons.mp htmem with rfl | hmem
        · exact le_refl _
        · exact absurd hmem (List.not_mem_nil _)
    · next u hu =>
        split at h
        · next hle =>
            injection h with h2
            subst h2
            rcases List.mem_cons.mp htmem with rfl | hmem
            · exact le_refl _
            · exact le_trans hle (ih _ hu t hmem)
        · next hgt =>
            injection h with h2
            subst h2
            rcases List.mem_cons.mp htmem with rfl | hmem
            · exact Nat.le_of_lt (Nat.lt_of_not_le hgt)
            · exact ih _ hu t hmem

/-- C6: the direct "today" reservation.  If no slot of (today, franja) is
free the operation reports no capacity and returns the database bit-for-bit
unchanged; if the free-slot query returns a row, that row is free, its
`plaza_id` is minimal among the free slots, the operation reports that plaza
reserved, and in the resulting database every row carrying that
(fecha, plaza_id, franja) key has `reservado_por = some user`. -/
theorem c6_reserva_directa_hoy (d : Int) (f : String) (user : String)
    (db : DB) :
    ((∀ s ∈ db.slots, esLibre d f s = false) →
      reservarHoy d f user db = (ResultadoHoy.sinHueco, db))
    ∧ (∀ s : SlotRow, primeraLibre d f db = some s →
        esLibre d f s = true
        ∧ (∀ t ∈ db.slots, esLibre d f t = true → s.plaza_id ≤ t.plaza_id)
        ∧ (reservarHoy d f user db).1 = ResultadoHoy.reservada s.plaza_id
        ∧ (∀ t ∈ (reservarHoy d f user db).2.slots,
            t.fecha = d → t.plaza_id = s.plaza_id → t.franja = f →
            t.reservado_por = some user)) := by
  constructor
  · intro hvacio
    have hfil : db.slots.filter (esLibre d f) = [] := by
      rw [List.filter_eq_nil_iff]
      intro a ha
      simp [hvacio a ha]
    have hnone : primeraLibre d f db = none := by
      rw [primeraLibre, hfil]
      rfl
    simp [reservarHoy, hnone]
  · intro s hs
    have hsfil : s ∈ db.slots.filter (esLibre d f) := minPorPlaza_mem _ _ hs
    have hsmem : s ∈ db.slots := List.mem_of_mem_filter hsfil
    have hslib : esLibre d f s = true := List.of_mem_filter hsfil
    have hprops : s.fecha = d ∧ s.franja = f ∧ s.owner_usa = false
        ∧ s.reservado_por = none := by
      simpa [esLibre] using hslib
    have hres : reservarHoy d f user db
        = (ResultadoHoy.reservada s.plaza_id,
            escrituraReservaHoy d f s.plaza_id user db) := by
      simp [reservarHoy, hs]
    have hany : db.slots.any
        (fun s2 => decide (s2.fecha = d ∧ s2.plaza_id = s.plaza_id
          ∧ s2.franja = f)) = true := by
      rw [List.any_eq_true]
      exact ⟨s, hsmem, by simp [hprops.1, hprops.2.1]⟩
    have hesc : (escrituraReservaHoy d f s.plaza_id user db).slots
        = db.slots.map (aplicarReservaHoy d f s.plaza_id user) := by
      rw [escrituraReservaHoy, if_pos hany]
    refine ⟨hslib, ?_, ?_, ?_⟩
    · intro t htmem htlib
      exact minPorPlaza_le _ _ hs t (List.mem_filter.mpr ⟨htmem, htlib⟩)
    · rw [hres]
    · rw [hres]
      simp only [hesc]
      intro t ht h1 h2 h3
      obtain ⟨u, hu, rfl⟩ := List.mem_map.mp ht
      by_cases hk : u.fecha = d ∧ u.plaza_id = s.plaza_id ∧ u.franja = f
      · simp [aplicarReservaHoy, hk]
      · have heq : aplicarReservaHoy d f s.plaza_id user u = u := by
          simp [aplicarReservaHoy, hk]
        rw [heq] at h1 h2 h3
        exact (hk ⟨h1, h2, h3⟩).elim

/-- Witness for `c6_reserva_directa_hoy`: a database whose only slot of
(0, "M") is owner-used gives `sinHueco` with no change, and a database with
free plazas 2 and 1 plus a taken plaza 3 reserves plaza 1. -/
theorem c6_reserva_directa_hoy_witness :
    reservarHoy 0 "M" "U" (DB.mk [⟨0, 1, "M", true, none, "C", false⟩] [])
      = (ResultadoHoy.sinHueco,
          DB.mk [⟨0, 1, "M", true, none, "C", false⟩] [])
    ∧ (reservarHoy 0 "M" "U"
        (DB.mk [⟨0, 3, "M", false, some "B", "C", false⟩,
                ⟨0, 2, "M", false, none, "C", false⟩,
                ⟨0, 1, "M", false, none, "C", false⟩] [])).1
      = ResultadoHoy.reservada 1 := by
  constructor
  · exact (c6_reserva_directa_hoy 0 "M" "U" _).1 (by decide)
  · exact ((c6_reserva_directa_hoy 0 "M" "U" _).2
      ⟨0, 1, "M", false, none, "C", false⟩ (by decide)).2.2.1

/-- C1: the slot write of the direct today path is an unconditional upsert,
not a conditional update: applied to a state in which the targeted
(fecha, plaza, franja) slot already has `reservado_por = some "B"`, it
overwrites `reservado_por` with the new requester "A" (and reports the
normal success of a merge-duplicates POST) instead of leaving the slot
unchanged and reporting failure. -/
theorem c1_escritura_sobreescribe_reserva :
    (DB.mk [⟨0, 1, "M", false, some "B", "CONFIRMADO", false⟩] []).slots.map
        (fun s => s.reservado_por) = [some "B"]
    ∧ (escrituraReservaHoy 0 "M" 1 "A"
        (DB.mk [⟨0, 1, "M", false, some "B", "CONFIRMADO", false⟩] [])).slots
      = [⟨0, 1, "M", false, some "A", "CONFIRMADO", false⟩] := by
  constructor
  · rfl
  · rfl

/-- C3: `cancelar_sorteo` releases every slot of the date that still carries
`es_sorteo = true`, with no check that `reservado_por` matches the requester
the lottery assigned (no such requester is stored): on a state where the
lottery-origin slot was re-reserved by principal "B", the reversal sets its
`reservado_por` from `some "B"` to `none` instead of leaving it unchanged. -/
theorem c3_libera_reserva_ajena :
    (DB.mk [⟨0, 1, "M", false, some "B", "CONFIRMADO", true⟩] []).slots.map
        (fun s => s.reservado_por) = [some "B"]
    ∧ (cancelar_sorteo 0
        (DB.mk [⟨0, 1, "M", false, some "B", "CONFIRMADO", true⟩] [])).slots.map
        (fun s => s.reservado_por) = [none] := by
  constructor
  · rfl
  · rfl

/-- C2: the automatic trigger in `main` guards only on the per-session
variable `last_auto_draw_date`, never on the persistent `sorteos_log` audit
table (the condition takes no log input at all): at 20:01 a fresh session
fires even though another fresh session fires too, so two independent
sessions execute the lottery for the same date twice; within one session
the variable does prevent a second run. -/
theorem c2_doble_ejecucion_automatica :
    disparaSorteoAutomatico 0 (20 * 60 + 1) ⟨none⟩ = true
    ∧ ejecucionesAutomaticas 0 (20 * 60 + 1)
        [Sesion.mk none, Sesion.mk none] = 2
    ∧ (pasoSorteoAutomatico 0 (20 * 60 + 1) ⟨none⟩).2 = true
    ∧ (pasoSorteoAutomatico 0 (20 * 60 + 1)
        (pasoSorteoAutomatico 0 (20 * 60 + 1) ⟨none⟩).1).2 = false := by
  refine ⟨rfl, rfl, rfl, rfl⟩

/-- C7: the monthly-usage KPI equals the count of slot rows reserved by the
requester whose date lies in `[firstOfMonth, firstOfNextMonth)`, with the
upper bound being January 1st of the following year when the target date is
in December and the 1st of the next month otherwise. -/
theorem c7_uso_mensual (filas : List FilaUso) (user : String) (hoy : Fecha) :
    usadas_mes filas user hoy = usoMensualSpec filas user hoy
    ∧ first_day hoy = ⟨hoy.year, hoy.month, 1⟩
    ∧ (∀ y d : Nat, next_month_first ⟨y, 12, d⟩ = ⟨y + 1, 1, 1⟩)
    ∧ (∀ y m d : Nat, m ≠ 12 → next_month_first ⟨y, m, d⟩ = ⟨y, m + 1, 1⟩) := by
  refine ⟨?_, rfl, ?_, ?_⟩
  · rw [usadas_mes, usoMensualSpec, List.filter_filter]
    congr 1
    apply List.filter_congr
    intro r hr
    cases hA : decide (r.reservado_por = some user) <;>
      cases hB : Fecha.antesIgual (first_day hoy) r.fecha <;>
        cases hC : Fecha.antes r.fecha (next_month_first hoy) <;>
          simp [hA, hB, hC]
  · intro y d
    simp [next_month_first, first_day]
  · intro y m d hm
    simp [next_month_first, first_day, hm]

/-- Witness for `c7_uso_mensual`: November 2025 as target date, one row in
the month, one before, one after; December wrap checked at 2025. -/
theorem c7_uso_mensual_witness :
    usadas_mes
        [⟨⟨2025, 11, 5⟩, some "U"⟩, ⟨⟨2025, 10, 31⟩, some "U"⟩,
         ⟨⟨2025, 12, 1⟩, some "U"⟩, ⟨⟨2025, 11, 6⟩, some "V"⟩]
        "U" ⟨2025, 11, 20⟩
      = usoMensualSpec
        [⟨⟨2025, 11, 5⟩, some "U"⟩, ⟨⟨2025, 10, 31⟩, some "U"⟩,
         ⟨⟨2025, 12, 1⟩, some "U"⟩, ⟨⟨2025, 11, 6⟩, some "V"⟩]
        "U" ⟨2025, 11, 20⟩
    ∧ next_month_first ⟨2025, 12, 20⟩ = ⟨2026, 1, 1⟩
    ∧ (11 : Nat) ≠ 12
    ∧ next_month_first ⟨2025, 11, 20⟩ = ⟨2025, 12, 1⟩ := by
  have h := c7_uso_mensual
    [⟨⟨2025, 11, 5⟩, some "U"⟩, ⟨⟨2025, 10, 31⟩, some "U"⟩,
     ⟨⟨2025, 12, 1⟩, some "U"⟩, ⟨⟨2025, 11, 6⟩, some "V"⟩]
    "U" ⟨2025, 11, 20⟩
  exact ⟨h.1, h.2.2.1 2025 20, by norm_num,
    h.2.2.2 2025 11 20 (by norm_num)⟩

/-- Helper: a CANCELADO pre-reservation row is untouched by the
cancellation PATCH. -/
theorem cancelarPreFila_cancelado (user : String) (d : Int) (f : String)
    (r : PreReserva) (h : r.estado = "CANCELADO") :
    cancelarPreFila user d f r = r := by
  have hcond : ¬ (r.usuario_id = user ∧ r.fecha = d ∧ r.franja = f ∧
      (r.estado = "PENDIENTE" ∨ r.estado = "ASIGNADO")) := by
    rintro ⟨-, -, -, hc | hc⟩ <;> rw [h] at hc <;> simp at hc
  rw [cancelarPreFila, if_neg hcond]

/-- Helper: a CANCELADO EV request row is untouched by
`ev_cancelar_solicitud`. -/
theorem evCancelarFila_cancelado (d : Int) (user : String)
    (r : EvSolicitud) (h : r.estado = "CANCELADO") :
    evCancelarFila d user r = r := by
  have hcond : ¬ (r.fecha = d ∧ r.usuario_id = user ∧
      (r.estado = "PENDIENTE" ∨ r.estado = "ASIGNADO"
        ∨ r.estado = "RECHAZADO" ∨ r.estado = "NO_DISPONIBLE")) := by
    rintro ⟨-, -, hc | hc | hc | hc⟩ <;> rw [h] at hc <;> simp at hc
  rw [evCancelarFila, if_neg hcond]

/-- Helper: one-row idempotence of the pre-reservation cancellation. -/
theorem cancelarPreFila_idem (user : String) (d : Int) (f : String)
    (r : PreReserva) :
    cancelarPreFila user d f (cancelarPreFila user d f r)
      = cancelarPreFila user d f r := by
  by_cases hcond : r.usuario_id = user ∧ r.fecha = d ∧ r.franja = f ∧
      (r.estado = "PENDIENTE" ∨ r.estado = "ASIGNADO")
  · have h1 : cancelarPreFila user d f r = { r with estado := "CANCELADO" } := by
      rw [cancelarPreFila, if_pos hcond]
    rw [h1]
    exact cancelarPreFila_cancelado user d f _ rfl
  · have h1 : cancelarPreFila user d f r = r := by
      rw [cancelarPreFila, if_neg hcond]
    rw [h1, h1]

/-- Helper: one-row idempotence of the EV cancellation. -/
theorem evCancelarFila_idem (d : Int) (user : String) (r : EvSolicitud) :
    evCancelarFila d user (evCancelarFila d user r)
      = evCancelarFila d user r := by
  by_cases hcond : r.fecha = d ∧ r.usuario_id = user ∧
      (r.estado = "PENDIENTE" ∨ r.estado = "ASIGNADO"
        ∨ r.estado = "RECHAZADO" ∨ r.estado = "NO_DISPONIBLE")
  · have h1 : evCancelarFila d user r = { r with estado := "CANCELADO" } := by
      rw [evCancelarFila, if_pos hcond]
    rw [h1]
    exact evCancelarFila_cancelado d user _ rfl
  · have h1 : evCancelarFila d user r = r := by
      rw [evCancelarFila, if_neg hcond]
    rw [h1, h1]

/-- C9: cancellation is a conditional transition that is safe to call
redundantly.  A row already CANCELADO matches neither PATCH filter and is
left unchanged (not an error), the pre-reservation cancellation never
touches the `slots` table, and both cancellation operations are idempotent
on the whole table. -/
theorem c9_cancelacion_idempotente (user : String) (d : Int) (f : String) :
    (∀ r : PreReserva, r.estado = "CANCELADO" →
      cancelarPreFila user d f r = r)
    ∧ (∀ r : EvSolicitud, r.estado = "CANCELADO" →
      evCancelarFila d user r = r)
    ∧ (∀ db : DB, (cancelarPreReserva user d f db).slots = db.slots)
    ∧ (∀ db : DB, cancelarPreReserva user d f (cancelarPreReserva user d f db)
        = cancelarPreReserva user d f db)
    ∧ (∀ filas : List EvSolicitud,
        ev_cancelar_solicitud d user (ev_cancelar_solicitud d user filas)
          = ev_cancelar_solicitud d user filas) := by
  refine ⟨fun r h => cancelarPreFila_cancelado user d f r h,
    fun r h => evCancelarFila_cancelado d user r h, fun db => rfl, ?_, ?_⟩
  · intro db
    have hff : cancelarPreFila user d f ∘ cancelarPreFila user d f
        = cancelarPreFila user d f := funext (cancelarPreFila_idem user d f)
    simp only [cancelarPreReserva, List.map_map, hff]
  · intro filas
    have hff : evCancelarFila d user ∘ evCancelarFila d user
        = evCancelarFila d user := funext (evCancelarFila_idem d user)
    simp only [ev_cancelar_solicitud, List.map_map, hff]

/-- Witness for `c9_cancelacion_idempotente`: a CANCELADO pre-reservation
and a CANCELADO EV request are both no-ops, and double cancellation of a
one-row table equals single cancellation. -/
theorem c9_cancelacion_idempotente_witness :
    cancelarPreFila "U" 0 "M" ⟨"U", 0, "M", "CANCELADO", none⟩
      = ⟨"U", 0, "M", "CANCELADO", none⟩
    ∧ evCancelarFila 0 "U" ⟨0, "U", "M", "CANCELADO"⟩
      = ⟨0, "U", "M", "CANCELADO"⟩
    ∧ ev_cancelar_solicitud 0 "U"
        (ev_cancelar_solicitud 0 "U" [⟨0, "U", "M", "PENDIENTE"⟩])
      = ev_cancelar_solicitud 0 "U" [⟨0, "U", "M", "PENDIENTE"⟩] := by
  have h := c9_cancelacion_idempotente "U" 0 "M"
  exact ⟨h.1 _ rfl, h.2.1 _ rfl, h.2.2.2.2 _⟩

/-- C8: a full-day pack is created as exactly two PENDIENTE rows with the
same fresh pack id, same requester and date, periods M and T; and in the
lottery (modelled from the spec, §4.3 step 5) every pack receives one
outcome, ASIGNADO or RECHAZADO, and applying it sends each PENDIENTE row of
the pack to that same state — the two rows transition together, never split
between ASIGNADO and RECHAZADO. -/
theorem c8_pack_atomicidad :
    (∀ (user : String) (d : Int) (pack : String) (db : DB),
      (∀ r ∈ db.pre_reservas, r.pack_id ≠ some pack) →
      (crearPackDiaCompleto user d pack db).pre_reservas.filter
          (fun r => decide (r.pack_id = some pack))
        = [⟨user, d, "M", "PENDIENTE", some pack⟩,
           ⟨user, d, "T", "PENDIENTE", some pack⟩])
    ∧ (∀ (packs : List (String × String)) (m t : Nat)
        (p : String × String) (e : String),
        (p, e) ∈ asignarPacks packs m t →
        e = "ASIGNADO" ∨ e = "RECHAZADO")
    ∧ (∀ (pack : String) (e : String) (r : PreReserva),
        r.pack_id = some pack → r.estado = "PENDIENTE" →
        (aplicarResultadoPack pack e r).estado = e) := by
  refine ⟨?_, ?_, ?_⟩
  · intro user d pack db hfresh
    have h1 : db.pre_reservas.filter
        (fun r => decide (r.pack_id = some pack)) = [] := by
      rw [List.filter_eq_nil_iff]
      intro r hr
      simp [hfresh r hr]
    rw [crearPackDiaCompleto]
    simp only [List.filter_append, h1, List.nil_append]
    simp
  · intro packs
    induction packs with
    | nil => intro m t p e h; simp [asignarPacks] at h
    | cons a rest ih =>
      intro m t p e h
      rw [asignarPacks] at h
      split at h
      · rcases List.mem_cons.mp h with h | h
        · simp at h
          exact Or.inl h.2
        · exact ih _ _ _ _ h
      · rcases List.mem_cons.mp h with h | h
        · simp at h
          exact Or.inr h.2
        · exact ih _ _ _ _ h
  · intro pack e r h1 h2
    simp [aplicarResultadoPack, h1, h2]

/-- Witness for `c8_pack_atomicidad`: pack "p1" created in an empty
database, one pack drawn with one free slot per period, and the outcome
applied to one of its PENDIENTE rows. -/
theorem c8_pack_atomicidad_witness :
    (crearPackDiaCompleto "U" 0 "p1" (DB.mk [] [])).pre_reservas.filter
        (fun r => decide (r.pack_id = some "p1"))
      = [⟨"U", 0, "M", "PENDIENTE", some "p1"⟩,
         ⟨"U", 0, "T", "PENDIENTE", some "p1"⟩]
    ∧ ("ASIGNADO" = "ASIGNADO" ∨ "ASIGNADO" = "RECHAZADO")
    ∧ (aplicarResultadoPack "p1" "ASIGNADO"
        ⟨"U", 0, "M", "PENDIENTE", some "p1"⟩).estado = "ASIGNADO" := by
  refine ⟨c8_pack_atomicidad.1 "U" 0 "p1" (DB.mk [] []) (by simp),
    c8_pack_atomicidad.2.1 [("U", "p1")] 1 1 ("U", "p1") "ASIGNADO" ?_,
    c8_pack_atomicidad.2.2 "p1" "ASIGNADO" _ rfl rfl⟩
  rw [asignarPacks]
  simp

end Parking
